import Mathlib

/-!
Shallow embedding of `src/block.rs` from `matthewjberger/notminecraft`.

The voxel data model (`Block`, `BlockConfiguration`, `Tile`, `Chunk`,
`World`), the face-culling draw traversal `Cube::draw_world`, the atlas
layer addressing of `Cube::create_atlas`, and the shader-compilation
check `Cube::check_compilation` are translated into executable Lean
definitions.  GL side effects are modelled as emitted `DrawCall` events;
`usize` arithmetic is modelled as `Nat` with explicit wrap-around
modulo `2 ^ 64` where the source can underflow.
-/

namespace NotMinecraft

/-- `const CHUNK_WIDTH: usize = 4`. -/
def CHUNK_WIDTH : Nat := 4

/-- `const CHUNK_LENGTH: usize = 4`. -/
def CHUNK_LENGTH : Nat := 4

/-- `const CHUNK_DEPTH: usize = 8`. -/
def CHUNK_DEPTH : Nat := 8

/-- `const WORLD_WIDTH: usize = 4`. -/
def WORLD_WIDTH : Nat := 4

/-- `const WORLD_LENGTH: usize = 4`. -/
def WORLD_LENGTH : Nat := 4

/-- Number of values of Rust `usize` (64-bit target). -/
def USIZE_CARD : Nat := 2 ^ 64

/-- Wrapping `usize` subtraction of one, the release-mode semantics of
`z - 1` on `usize` in the neighbor lookups of `draw_world`. -/
def usizeSub1 (z : Nat) : Nat := (z + (USIZE_CARD - 1)) % USIZE_CARD

/-- Checked `usize` subtraction of one (`z.checked_sub(1)`); `none` is the
branch where debug-mode `z - 1` panics. -/
def checkedSub1 (z : Nat) : Option Nat := if z = 0 then none else some (z - 1)

/-- `enum Tile` of `block.rs` (atlas tile discriminants). -/
inductive Tile where
  | Air
  | Gravel
  | DirtSnowSide
  | Grass
  | DirtGrassSide
  | Cobblestone
  | Bedrock
  | Dirt
  | OakPlanks
  | TntSide
  | TntTop
  | TntBottom
  | Rose
  | Thistle
deriving DecidableEq

/-- The `i32` discriminant of each `Tile` variant (`Tile::X as i32`):
`Air = -1`, then successors, with the explicit jumps of the source
(`Cobblestone = 26`, `Bedrock = 32`, `Dirt = 50`, `OakPlanks = 53`,
`TntSide = 62`, `Rose = 68`). -/
def Tile.asI32 : Tile → Int
  | .Air => -1
  | .Gravel => 0
  | .DirtSnowSide => 1
  | .Grass => 2
  | .DirtGrassSide => 3
  | .Cobblestone => 26
  | .Bedrock => 32
  | .Dirt => 50
  | .OakPlanks => 53
  | .TntSide => 62
  | .TntTop => 63
  | .TntBottom => 64
  | .Rose => 68
  | .Thistle => 69

/-- `struct BlockConfiguration` of `block.rs`: six per-face `i32` tile
indices plus the entity and solidity flags. -/
structure BlockConfiguration where
  left : Int
  right : Int
  front : Int
  back : Int
  top : Int
  bottom : Int
  is_entity : Bool
  is_solid : Bool
deriving DecidableEq

/-- `#[derive(Default)]` on `BlockConfiguration`: every `i32` field is `0`
and every `bool` field is `false`. -/
def BlockConfiguration.default : BlockConfiguration :=
  { left := 0, right := 0, front := 0, back := 0, top := 0, bottom := 0,
    is_entity := false, is_solid := false }

/-- `BlockConfiguration::empty()`. -/
def BlockConfiguration.empty : BlockConfiguration :=
  { left := Tile.Air.asI32, right := Tile.Air.asI32, front := Tile.Air.asI32,
    back := Tile.Air.asI32, top := Tile.Air.asI32, bottom := Tile.Air.asI32,
    is_entity := false, is_solid := false }

/-- `BlockConfiguration::new(left, right, front, back, top, bottom)`. -/
def BlockConfiguration.new (left right front back top bottom : Tile) :
    BlockConfiguration :=
  { left := left.asI32, right := right.asI32, front := front.asI32,
    back := back.asI32, top := top.asI32, bottom := bottom.asI32,
    is_entity := false, is_solid := true }

/-- `BlockConfiguration::new_single(id)`. -/
def BlockConfiguration.new_single (id : Tile) : BlockConfiguration :=
  { left := id.asI32, right := id.asI32, front := id.asI32,
    back := id.asI32, top := id.asI32, bottom := id.asI32,
    is_entity := false, is_solid := true }

/-- `BlockConfiguration::new_same_sides(sides, top, bottom)`. -/
def BlockConfiguration.new_same_sides (sides top bottom : Tile) :
    BlockConfiguration :=
  { left := sides.asI32, right := sides.asI32, front := sides.asI32,
    back := sides.asI32, top := top.asI32, bottom := bottom.asI32,
    is_entity := false, is_solid := true }

/-- `BlockConfiguration::new_entity(tile)`: starts from the derived
default and then sets `front`, `is_entity = true`, `is_solid = false`. -/
def BlockConfiguration.new_entity (tile : Tile) : BlockConfiguration :=
  { BlockConfiguration.default with
    front := tile.asI32, is_entity := true, is_solid := false }

/-- `enum Block` of `block.rs`. -/
inductive Block where
  | Air
  | Gravel
  | Grass
  | DirtWithGrass
  | Dirt
  | Cobblestone
  | Tnt
  | Bedrock
  | OakPlanks
  | Rose
  | Thistle
deriving DecidableEq, Fintype

/-- `impl Default for Block`: `Self::Dirt`. -/
def Block.default : Block := Block.Dirt

/-- `Block::configuration`, the static block catalog. -/
def Block.configuration : Block → BlockConfiguration
  | .Air => BlockConfiguration.default
  | .Gravel => BlockConfiguration.new_single Tile.Gravel
  | .Grass => BlockConfiguration.new_single Tile.Grass
  | .Dirt => BlockConfiguration.new_single Tile.Dirt
  | .DirtWithGrass =>
      BlockConfiguration.new_same_sides Tile.DirtGrassSide Tile.Grass Tile.Dirt
  | .Cobblestone => BlockConfiguration.new_single Tile.Cobblestone
  | .Tnt => BlockConfiguration.new_same_sides Tile.TntSide Tile.TntTop Tile.TntBottom
  | .Bedrock => BlockConfiguration.new_single Tile.Bedrock
  | .OakPlanks => BlockConfiguration.new_single Tile.OakPlanks
  | .Rose => BlockConfiguration.new_entity Tile.Rose
  | .Thistle => BlockConfiguration.new_entity Tile.Thistle

/-- `struct Chunk`: a `position` (the source stores a `glm::Vec3` of small
exact naturals cast to `f32`; modelled as a `Nat` triple) and the
`blocks[x][z][y]` array, modelled as a total function; bounds are carried
by the chunk dimension parameters of the traversal. -/
structure Chunk where
  position : Nat × Nat × Nat
  blocks : Nat → Nat → Nat → Block

/-- `Chunk::default()`: origin position, every cell `Block::default()`. -/
def Chunk.mkDefault : Chunk :=
  { position := (0, 0, 0), blocks := fun _ _ _ => Block.default }

/-- `World::new()`: for `y in 0..WORLD_LENGTH`, for `x in 0..WORLD_WIDTH`,
a default chunk positioned at
`(x * CHUNK_WIDTH, y * CHUNK_LENGTH, 0)`. -/
def World.new : List (List Chunk) :=
  (List.range WORLD_LENGTH).map fun y =>
    (List.range WORLD_WIDTH).map fun x =>
      { Chunk.mkDefault with
        position := (x * CHUNK_WIDTH, y * CHUNK_LENGTH, 0) }

/-- One `gl::DrawArrays(gl::TRIANGLES, first, count)` call together with
the `blockId` uniform (`gl::Uniform1i`) in effect when it is issued. -/
structure DrawCall where
  first : Nat
  count : Nat
  blockId : Int
deriving DecidableEq

/-- The six cube faces, in the order `draw_world` tests them. -/
inductive Face where
  | back
  | front
  | left
  | right
  | bottom
  | top
deriving DecidableEq, Fintype

/-- The fixed face order of the non-entity branch of `draw_world`. -/
def faceOrder : List Face :=
  [Face.back, Face.front, Face.left, Face.right, Face.bottom, Face.top]

/-- The `first` argument of the `DrawArrays` call of each face (offset
into `VERTICES`): back `0`, front `6`, left `12`, right `18`,
bottom `24`, top `30`. -/
def Face.firstVertex : Face → Nat
  | .back => 0
  | .front => 6
  | .left => 12
  | .right => 18
  | .bottom => 24
  | .top => 30

/-- The tile index a face selects out of a `BlockConfiguration`. -/
def Face.tile (configuration : BlockConfiguration) : Face → Int
  | .back => configuration.back
  | .front => configuration.front
  | .left => configuration.left
  | .right => configuration.right
  | .bottom => configuration.bottom
  | .top => configuration.top

/-- The bounds-checked neighbor lookup of each face in `draw_world`,
for a chunk of dimensions `W × L × D` (`blocks[x][z][y]`, `x < W`,
`z < L`, `y < D`):
back `chunk.blocks[x].get(z - 1)`, front `chunk.blocks[x].get(z + 1)`,
left `chunk.blocks.get(x - 1)`, right `chunk.blocks.get(x + 1)`,
bottom `chunk.blocks[x][z].get(y - 1)`, top `chunk.blocks[x][z].get(y + 1)`;
the in-bounds `some` case is already indexed down to the neighbor block
(`neighbor[y]` resp. `neighbor[z][y]` never fault, as `y < D`, `z < L`).
The `- 1` is wrapping `usize` subtraction. -/
def faceNeighbor (W L D : Nat) (blocks : Nat → Nat → Nat → Block)
    (x z y : Nat) : Face → Option Block
  | .back => if usizeSub1 z < L then some (blocks x (usizeSub1 z) y) else none
  | .front => if z + 1 < L then some (blocks x (z + 1) y) else none
  | .left => if usizeSub1 x < W then some (blocks (usizeSub1 x) z y) else none
  | .right => if x + 1 < W then some (blocks (x + 1) z y) else none
  | .bottom => if usizeSub1 y < D then some (blocks x z (usizeSub1 y)) else none
  | .top => if y + 1 < D then some (blocks x z (y + 1)) else none

/-- The `should_render` computation of `draw_world`:
`if let Some(neighbor) = ... { !neighbor.configuration().is_solid } else { true }`. -/
def shouldRender : Option Block → Bool
  | some neighbor => !neighbor.configuration.is_solid
  | none => true

/-- Per-face visibility of a block at `(x, z, y)`. -/
def faceVisible (W L D : Nat) (blocks : Nat → Nat → Nat → Block)
    (x z y : Nat) (face : Face) : Bool :=
  shouldRender (faceNeighbor W L D blocks x z y face)

/-- The draw calls the body of `draw_world` issues for one (non-`Air`)
block at local coordinates `(x, z, y)`: the entity branch issues the
front quad twice (`DrawArrays(TRIANGLES, 6, 6)` with `blockId = front`,
once plain and once rotated); the cube branch tests the six faces in
order and issues one call per visible face. -/
def drawBlockCalls (W L D : Nat) (blocks : Nat → Nat → Nat → Block)
    (x z y : Nat) : List DrawCall :=
  let configuration := (blocks x z y).configuration
  if configuration.is_entity then
    [{ first := 6, count := 6, blockId := configuration.front },
     { first := 6, count := 6, blockId := configuration.front }]
  else
    faceOrder.flatMap fun face =>
      if faceVisible W L D blocks x z y face then
        [{ first := face.firstVertex, count := 6,
           blockId := face.tile configuration }]
      else []

/-- The cell visit order of one chunk in `draw_world`:
`for x in 0..W { for z in 0..L { for y in 0..D } }`. -/
def chunkCells (W L D : Nat) : List (Nat × Nat × Nat) :=
  (List.range W).flatMap fun x =>
    (List.range L).flatMap fun z =>
      (List.range D).map fun y => (x, z, y)

/-- Processes the cells of one chunk in order.  Returns the emitted draw
calls and whether the `Block::Air == *block { return Ok(()) }` early
return fired (which aborts the whole `draw_world` call). -/
def drawChunkGo (W L D : Nat) (chunk : Chunk) :
    List (Nat × Nat × Nat) → List DrawCall × Bool
  | [] => ([], false)
  | (x, z, y) :: rest =>
    if chunk.blocks x z y = Block.Air then ([], true)
    else
      let calls := drawBlockCalls W L D chunk.blocks x z y
      let more := drawChunkGo W L D chunk rest
      (calls ++ more.1, more.2)

/-- Processes a row of chunks, propagating the early return. -/
def drawRowGo (W L D : Nat) : List Chunk → List DrawCall × Bool
  | [] => ([], false)
  | chunk :: rest =>
    let here := drawChunkGo W L D chunk (chunkCells W L D)
    if here.2 then (here.1, true)
    else
      let more := drawRowGo W L D rest
      (here.1 ++ more.1, more.2)

/-- Processes the rows of the world, propagating the early return. -/
def drawRowsGo (W L D : Nat) : List (List Chunk) → List DrawCall × Bool
  | [] => ([], false)
  | row :: rest =>
    let here := drawRowGo W L D row
    if here.2 then (here.1, true)
    else
      let more := drawRowsGo W L D rest
      (here.1 ++ more.1, more.2)

/-- `Cube::draw_world`, as the sequence of draw calls it issues for a
world given as its rows of chunks (chunk dimensions `W × L × D`; the
source fixes them to `CHUNK_WIDTH × CHUNK_LENGTH × CHUNK_DEPTH`). -/
def draw_world (W L D : Nat) (chunks : List (List Chunk)) : List DrawCall :=
  (drawRowsGo W L D chunks).1

/-- `Cube::create_atlas`: `columns = image.width() / dimension`. -/
def atlasColumns (width dimension : Nat) : Nat := width / dimension

/-- `Cube::create_atlas`: `rows = image.height() / dimension`. -/
def atlasRows (height dimension : Nat) : Nat := height / dimension

/-- `Cube::create_atlas`: `number_of_tiles = rows * columns`, the depth of
the layered texture. -/
def numberOfTiles (width height dimension : Nat) : Nat :=
  atlasRows height dimension * atlasColumns width dimension

/-- `Cube::create_atlas`: the layer a grid tile is uploaded to,
`tile = (row * columns) + column`. -/
def tileLayer (columns row column : Nat) : Nat := row * columns + column

/-- Whether a byte is a UTF-8 continuation byte (`0x80..=0xBF`), as in
the validation performed by `std::str::from_utf8`. -/
def isUtf8Cont (b : Nat) : Bool := 0x80 ≤ b && b ≤ 0xBF

/-- UTF-8 validity of a byte sequence, the check `std::str::from_utf8`
performs in `Cube::check_compilation` (RFC 3629: no overlong forms, no
surrogates, no code points above `U+10FFFF`). -/
def validUtf8 : List Nat → Bool
  | [] => true
  | b :: rest =>
    if b ≤ 0x7F then validUtf8 rest
    else if 0xC2 ≤ b && b ≤ 0xDF then
      match rest with
      | c :: rest2 => isUtf8Cont c && validUtf8 rest2
      | [] => false
    else if b = 0xE0 then
      match rest with
      | c :: c2 :: rest2 =>
        (0xA0 ≤ c && c ≤ 0xBF) && isUtf8Cont c2 && validUtf8 rest2
      | _ => false
    else if (0xE1 ≤ b && b ≤ 0xEC) || b = 0xEE || b = 0xEF then
      match rest with
      | c :: c2 :: rest2 => isUtf8Cont c && isUtf8Cont c2 && validUtf8 rest2
      | _ => false
    else if b = 0xED then
      match rest with
      | c :: c2 :: rest2 =>
        (0x80 ≤ c && c ≤ 0x9F) && isUtf8Cont c2 && validUtf8 rest2
      | _ => false
    else if b = 0xF0 then
      match rest with
      | c :: c2 :: c3 :: rest2 =>
        (0x90 ≤ c && c ≤ 0xBF) && isUtf8Cont c2 && isUtf8Cont c3 &&
          validUtf8 rest2
      | _ => false
    else if 0xF1 ≤ b && b ≤ 0xF3 then
      match rest with
      | c :: c2 :: c3 :: rest2 =>
        isUtf8Cont c && isUtf8Cont c2 && isUtf8Cont c3 && validUtf8 rest2
      | _ => false
    else if b = 0xF4 then
      match rest with
      | c :: c2 :: c3 :: rest2 =>
        (0x80 ≤ c && c ≤ 0x8F) && isUtf8Cont c2 && isUtf8Cont c3 &&
          validUtf8 rest2
      | _ => false
    else false

/-- `Cube::check_compilation(id)`, abstracted over the GL compile status
and the info-log bytes GL reports.  On success it returns `Ok(())` with
nothing logged.  On failure it converts the log with
`std::str::from_utf8(&info_log)?` — an invalid log propagates the
`Utf8Error` as `Err` — then prints the log (`ok (some log)`) and
returns `Ok(())`. -/
def check_compilation (success : Bool) (info_log : List Nat) :
    Except Unit (Option (List Nat)) :=
  if success then Except.ok none
  else if validUtf8 info_log then Except.ok (some info_log)
  else Except.error ()

/-- A chunk whose every cell is `Block::Air`. -/
def airChunk : Chunk := { position := (0, 0, 0), blocks := fun _ _ _ => Block.Air }

/-- A chunk whose every cell is `Block::Dirt` (a solid kind). -/
def dirtChunk : Chunk := { position := (0, 0, 0), blocks := fun _ _ _ => Block.Dirt }

/-- A chunk (used with dimensions `2 × 1 × 1`) whose cell `(0,0,0)` is
`Air` and whose cell `(1,0,0)` is `Dirt`. -/
def airThenDirtChunk : Chunk :=
  { position := (0, 0, 0),
    blocks := fun x _ _ => if x = 0 then Block.Air else Block.Dirt }

/-- The chunk of the 2×2×1 scenario: solid `Dirt` at local coordinates
`(0,0,0)` and `(1,0,0)`, `Air` everywhere else. -/
def twoSolidChunk : Chunk :=
  { position := (0, 0, 0),
    blocks := fun _ z y => if z = 0 && y = 0 then Block.Dirt else Block.Air }

/-- All-`Dirt` block function, for per-block witnesses. -/
def allDirt : Nat → Nat → Nat → Block := fun _ _ _ => Block.Dirt

/-- All-`Rose` block function (an entity kind), for per-block witnesses. -/
def allRose : Nat → Nat → Nat → Block := fun _ _ _ => Block.Rose

lemma shouldRender_eq_true_iff (o : Option Block) :
    shouldRender o = true ↔
      o = none ∨ ∃ n, o = some n ∧ n.configuration.is_solid = false := by
  cases o <;> simp [shouldRender]

lemma firstVertex_injective :
    ∀ f g : Face, f.firstVertex = g.firstVertex → f = g := by decide

lemma mem_faceOrder (f : Face) : f ∈ faceOrder := by cases f <;> simp [faceOrder]

lemma drawBlockCalls_of_not_entity (W L D : Nat)
    (blocks : Nat → Nat → Nat → Block) (x z y : Nat)
    (hent : (blocks x z y).configuration.is_entity = false) :
    drawBlockCalls W L D blocks x z y =
      faceOrder.flatMap fun face =>
        if faceVisible W L D blocks x z y face then
          [{ first := face.firstVertex, count := 6,
             blockId := face.tile ((blocks x z y).configuration) }]
        else [] := by
  simp only [drawBlockCalls, hent, Bool.false_eq_true, if_false]

lemma drawBlockCalls_of_entity (W L D : Nat)
    (blocks : Nat → Nat → Nat → Block) (x z y : Nat)
    (hent : (blocks x z y).configuration.is_entity = true) :
    drawBlockCalls W L D blocks x z y =
      [{ first := 6, count := 6, blockId := (blocks x z y).configuration.front },
       { first := 6, count := 6, blockId := (blocks x z y).configuration.front }] := by
  simp only [drawBlockCalls, hent, if_true]

lemma exists_faceCall_iff (W L D : Nat) (blocks : Nat → Nat → Nat → Block)
    (x z y : Nat) (face : Face)
    (hent : (blocks x z y).configuration.is_entity = false) :
    (∃ c ∈ drawBlockCalls W L D blocks x z y, c.first = face.firstVertex) ↔
      faceVisible W L D blocks x z y face = true := by
  rw [drawBlockCalls_of_not_entity W L D blocks x z y hent]
  constructor
  · rintro ⟨c, hc, hfirst⟩
    rw [List.mem_flatMap] at hc
    obtain ⟨f, _, hcf⟩ := hc
    by_cases hvis : faceVisible W L D blocks x z y f = true
    · rw [if_pos hvis, List.mem_singleton] at hcf
      subst hcf
      have : f = face := firstVertex_injective f face hfirst
      subst this
      exact hvis
    · rw [if_neg hvis] at hcf
      exact absurd hcf (List.not_mem_nil c)
  · intro hvis
    refine ⟨{ first := face.firstVertex, count := 6,
              blockId := face.tile ((blocks x z y).configuration) }, ?_, rfl⟩
    rw [List.mem_flatMap]
    exact ⟨face, mem_faceOrder face, by rw [if_pos hvis]; exact List.mem_singleton.mpr rfl⟩

/-- Claim C1 (code bug): the claim says an `Air` block skips only its own
cell, but `draw_world` executes `return Ok(())` on `Air`.  At the concrete
failing input — a `2 × 1 × 1` chunk layout with `Air` at `(0,0,0)` — the
traversal emits no draw call at all: the later `Dirt` block in the same
chunk and an entire subsequent all-`Dirt` chunk are never visited, even
though each of those worlds draws ten faces when no `Air` precedes it. -/
theorem air_return_aborts_world_traversal :
    draw_world 2 1 1 [[airThenDirtChunk]] = [] ∧
    draw_world 2 1 1 [[airChunk, dirtChunk]] = [] ∧
    (draw_world 2 1 1 [[dirtChunk]]).length = 10 ∧
    drawBlockCalls 2 1 1 airThenDirtChunk.blocks 1 0 0 ≠ [] := by
  refine ⟨rfl, rfl, rfl, ?_⟩
  decide

/-- Claim C2 (code bug): in the `2 × 2 × 1` scenario with solid blocks at
`(0,0,0)` and `(1,0,0)` and `Air` elsewhere, the code emits only the five
faces of the first block (back, front, left, bottom, top — the shared
right face is correctly culled) and then aborts on the `Air` cell at
`(0,1,0)`, so the second block contributes nothing: 5 draw calls instead
of the 10 the claim requires. -/
theorem two_solid_scenario_draws_five_not_ten :
    (draw_world 2 2 1 [[twoSolidChunk]]).map DrawCall.first = [0, 6, 12, 24, 30] ∧
    (draw_world 2 2 1 [[twoSolidChunk]]).length = 5 := by
  exact ⟨rfl, rfl⟩

/-- Claim C3: for a non-entity, non-air block, a face whose neighbor
lookup falls outside the chunk bounds (`faceNeighbor = none`) is always
drawn, and a face whose neighbor is in bounds (`faceNeighbor = some n`)
is drawn exactly when the configuration of that neighbor is non-solid. -/
theorem face_drawn_iff_neighbor_out_of_bounds_or_not_solid
    (W L D : Nat) (blocks : Nat → Nat → Nat → Block) (x z y : Nat)
    (face : Face) (hair : blocks x z y ≠ Block.Air)
    (hent : (blocks x z y).configuration.is_entity = false) :
    (faceNeighbor W L D blocks x z y face = none →
      ∃ c ∈ drawBlockCalls W L D blocks x z y, c.first = face.firstVertex) ∧
    (∀ n, faceNeighbor W L D blocks x z y face = some n →
      ((∃ c ∈ drawBlockCalls W L D blocks x z y, c.first = face.firstVertex) ↔
        n.configuration.is_solid = false)) := by
  constructor
  · intro hnone
    rw [exists_faceCall_iff W L D blocks x z y face hent]
    rw [faceVisible, hnone]
    rfl
  · intro n hsome
    rw [exists_faceCall_iff W L D blocks x z y face hent]
    rw [faceVisible, hsome]
    simp [shouldRender]

/-- Witness for C3 at a concrete input: the back face at `z = 0` of the
all-`Dirt` chunk has an out-of-bounds neighbor and is drawn. -/
theorem face_drawn_iff_neighbor_out_of_bounds_or_not_solid_witness :
    ∃ c ∈ drawBlockCalls 4 4 8 allDirt 0 0 0, c.first = Face.back.firstVertex :=
  (face_drawn_iff_neighbor_out_of_bounds_or_not_solid 4 4 8 allDirt 0 0 0
    Face.back (by decide) (by decide)).1 (by decide)

/-- Claim C4: at local coordinate `0`, the `usize` subtraction `0 - 1` of
the back/left/bottom neighbor lookups wraps to `2 ^ 64 - 1`, which lies
outside any chunk dimension, so the bounds-checked `get` yields `none`
and the face is drawn; checked subtraction at `0` only offers the panic
branch (`none`). -/
theorem underflow_wraps_out_of_bounds_and_face_drawn
    (W L D : Nat) (blocks : Nat → Nat → Nat → Block) (x z y : Nat)
    (hW : W < USIZE_CARD) (hL : L < USIZE_CARD) (hD : D < USIZE_CARD) :
    usizeSub1 0 = USIZE_CARD - 1 ∧
    checkedSub1 0 = none ∧
    faceNeighbor W L D blocks x 0 y Face.back = none ∧
    faceVisible W L D blocks x 0 y Face.back = true ∧
    faceNeighbor W L D blocks 0 z y Face.left = none ∧
    faceVisible W L D blocks 0 z y Face.left = true ∧
    faceNeighbor W L D blocks x z 0 Face.bottom = none ∧
    faceVisible W L D blocks x z 0 Face.bottom = true := by
  have hsub : usizeSub1 0 = USIZE_CARD - 1 := by
    rw [usizeSub1, Nat.zero_add]
    exact Nat.mod_eq_of_lt (by rw [USIZE_CARD]; omega)
  have hback : faceNeighbor W L D blocks x 0 y Face.back = none := by
    rw [faceNeighbor, hsub, if_neg]
    omega
  have hleft : faceNeighbor W L D blocks 0 z y Face.left = none := by
    rw [faceNeighbor, hsub, if_neg]
    omega
  have hbottom : faceNeighbor W L D blocks x z 0 Face.bottom = none := by
    rw [faceNeighbor, hsub, if_neg]
    omega
  refine ⟨hsub, rfl, hback, ?_, hleft, ?_, hbottom, ?_⟩
  · rw [faceVisible, hback]; rfl
  · rw [faceVisible, hleft]; rfl
  · rw [faceVisible, hbottom]; rfl

/-- Witness for C4 at the source chunk dimensions `4 × 4 × 8`. -/
theorem underflow_wraps_out_of_bounds_and_face_drawn_witness :
    usizeSub1 0 = USIZE_CARD - 1 :=
  (underflow_wraps_out_of_bounds_and_face_drawn 4 4 8 allDirt 0 0 0
    (by decide) (by decide) (by decide)).1

/-- Claim C5 (counterexample): the claim says unassigned face tiles are
the sentinel `-1` (`Tile::Air as i32`), but `Block::Air` is mapped to
`BlockConfiguration::default()`, whose derived `i32` default is `0`, so
already the left face of `Air` is not the sentinel. -/
theorem air_configuration_left_is_not_sentinel :
    Block.Air.configuration.left ≠ Tile.Air.asI32 := by decide

/-- Claim C5 (amended): every face tile the catalog does not explicitly
assign is the derived default `0` (not the `-1` sentinel): `Air` maps to
the all-zero default configuration, and every entity configuration has
all faces other than `front` equal to `0`. -/
theorem unassigned_face_tiles_are_default_zero
    (b : Block) (hb : b.configuration.is_entity = true) :
    Block.Air.configuration = BlockConfiguration.default ∧
    Block.Air.configuration.left = 0 ∧ Block.Air.configuration.right = 0 ∧
    Block.Air.configuration.front = 0 ∧ Block.Air.configuration.back = 0 ∧
    Block.Air.configuration.top = 0 ∧ Block.Air.configuration.bottom = 0 ∧
    b.configuration.left = 0 ∧ b.configuration.right = 0 ∧
    b.configuration.back = 0 ∧ b.configuration.top = 0 ∧
    b.configuration.bottom = 0 := by
  cases b <;> first
    | exact absurd hb (by decide)
    | exact ⟨rfl, rfl, rfl, rfl, rfl, rfl, rfl, rfl, rfl, rfl, rfl, rfl⟩

/-- Witness for the amended C5 at the entity kind `Rose`. -/
theorem unassigned_face_tiles_are_default_zero_witness :
    Block.Rose.configuration.left = 0 :=
  (unassigned_face_tiles_are_default_zero Block.Rose (by decide)).2.2.2.2.2.2.1

/-- Claim C6: no block kind has a configuration with both `is_entity` and
`is_solid` set — entity configurations are non-solid and solid
configurations are non-entity. -/
theorem entity_and_solid_mutually_exclusive :
    ∀ b : Block, ¬(b.configuration.is_entity = true ∧
      b.configuration.is_solid = true) := by decide

/-- Claim C7: a block whose configuration is an entity emits exactly two
quad draw calls (the front quad, drawn twice at vertex range `[6, 12)`),
and the emitted calls do not depend on any other cell of the chunk or on
the chunk dimensions. -/
theorem entity_block_emits_exactly_two_quads
    (W L D : Nat) (blocks : Nat → Nat → Nat → Block) (x z y : Nat)
    (hent : (blocks x z y).configuration.is_entity = true) :
    drawBlockCalls W L D blocks x z y =
      [{ first := 6, count := 6, blockId := (blocks x z y).configuration.front },
       { first := 6, count := 6, blockId := (blocks x z y).configuration.front }] ∧
    (drawBlockCalls W L D blocks x z y).length = 2 ∧
    ∀ (W2 L2 D2 : Nat) (blocks2 : Nat → Nat → Nat → Block),
      blocks2 x z y = blocks x z y →
      drawBlockCalls W2 L2 D2 blocks2 x z y = drawBlockCalls W L D blocks x z y := by
  have h1 := drawBlockCalls_of_entity W L D blocks x z y hent
  refine ⟨h1, by rw [h1]; rfl, ?_⟩
  intro W2 L2 D2 blocks2 heq
  have hent2 : (blocks2 x z y).configuration.is_entity = true := by
    rw [heq]; exact hent
  rw [drawBlockCalls_of_entity W2 L2 D2 blocks2 x z y hent2, h1, heq]

/-- Witness for C7 at the entity kind `Rose` in an all-`Rose` chunk. -/
theorem entity_block_emits_exactly_two_quads_witness :
    (drawBlockCalls 4 4 8 allRose 0 0 0).length = 2 :=
  (entity_block_emits_exactly_two_quads 4 4 8 allRose 0 0 0 (by decide)).2.1

/-- Claim C8: slicing a `256 × 256` atlas with `dimension = 16` yields
`16` columns, `16` rows and `256` layers; the tile at `(row, column)` is
uploaded as layer `row * 16 + column`, which is below the layer count
and distinct for distinct `(row, column)` pairs. -/
theorem atlas_layers_are_distinct_and_in_range
    (row column : Nat)
    (hr : row < atlasRows 256 16) (hc : column < atlasColumns 256 16) :
    atlasColumns 256 16 = 16 ∧ atlasRows 256 16 = 16 ∧
    numberOfTiles 256 256 16 = 256 ∧
    tileLayer (atlasColumns 256 16) row column = row * 16 + column ∧
    tileLayer (atlasColumns 256 16) row column < numberOfTiles 256 256 16 ∧
    ∀ r2 c2, r2 < atlasRows 256 16 → c2 < atlasColumns 256 16 →
      tileLayer (atlasColumns 256 16) r2 c2 =
        tileLayer (atlasColumns 256 16) row column →
      r2 = row ∧ c2 = column := by
  have hr2 : row < 16 := hr
  have hc2 : column < 16 := hc
  refine ⟨rfl, rfl, rfl, rfl, ?_, ?_⟩
  · show row * 16 + column < 256
    omega
  · intro r2 c2 hr3 hc3 heq
    have hr4 : r2 < 16 := hr3
    have hc4 : c2 < 16 := hc3
    have heq2 : r2 * 16 + c2 = row * 16 + column := heq
    constructor <;> omega

/-- Witness for C8 at tile `(3, 5)`. -/
theorem atlas_layers_are_distinct_and_in_range_witness :
    tileLayer (atlasColumns 256 16) 3 5 < numberOfTiles 256 256 16 :=
  (atlas_layers_are_distinct_and_in_range 3 5 (by decide) (by decide)).2.2.2.2.1

/-- Claim C9: `World::new` builds exactly
`WORLD_LENGTH * WORLD_WIDTH = 16` chunks; every cell of every chunk is
the default kind `Dirt` (distinct from `Air`), and the chunk at grid
row `y`, column `x` sits at world position
`(x * CHUNK_WIDTH, y * CHUNK_LENGTH, 0)`.  Construction is a pure
function of no inputs, hence deterministic. -/
theorem world_new_builds_grid_of_default_chunks
    (y x : Nat) (hy : y < WORLD_LENGTH) (hx : x < WORLD_WIDTH) :
    World.new.length = WORLD_LENGTH ∧
    (∀ row ∈ World.new, row.length = WORLD_WIDTH) ∧
    (World.new.map List.length).sum = WORLD_LENGTH * WORLD_WIDTH ∧
    ∃ chunk : Chunk,
      (World.new[y]?.bind fun row => row[x]?) = some chunk ∧
      chunk.position = (x * CHUNK_WIDTH, y * CHUNK_LENGTH, 0) ∧
      (∀ a b c : Nat, chunk.blocks a b c = Block.default) ∧
      Block.default ≠ Block.Air := by
  refine ⟨rfl, ?_, rfl, ?_⟩
  · intro row hrow
    simp only [World.new, List.mem_map] at hrow
    obtain ⟨y2, _, rfl⟩ := hrow
    simp
  · have hy4 : y < 4 := hy
    have hx4 : x < 4 := hx
    interval_cases y <;> interval_cases x <;>
      exact ⟨_, rfl, rfl, fun _ _ _ => rfl, by decide⟩

/-- Witness for C9 at grid cell `(2, 3)`. -/
theorem world_new_builds_grid_of_default_chunks_witness :
    World.new.length = WORLD_LENGTH :=
  (world_new_builds_grid_of_default_chunks 2 3 (by decide) (by decide)).1

/-- Claim C10 (counterexample): the claim says a failed compilation
always logs and returns `Ok`, but `check_compilation` converts the info
log with `std::str::from_utf8(...)?`, so an info log that is not valid
UTF-8 (the single byte `0xFF`) makes it return `Err` instead. -/
theorem check_compilation_errors_on_invalid_utf8_log :
    check_compilation false [0xFF] = Except.error () := rfl

/-- Claim C10 (amended): for a failed compilation whose info log is valid
UTF-8, `check_compilation` logs the info log and returns `Ok` rather
than an error. -/
theorem failed_compilation_logs_and_returns_ok
    (info_log : List Nat) (hvalid : validUtf8 info_log = true) :
    check_compilation false info_log = Except.ok (some info_log) := by
  simp [check_compilation, hvalid]

/-- Witness for the amended C10 on an ASCII info log of two bytes. -/
theorem failed_compilation_logs_and_returns_ok_witness :
    check_compilation false [72, 105] = Except.ok (some [72, 105]) :=
  failed_compilation_logs_and_returns_ok [72, 105] (by decide)

end NotMinecraft
